import Mathlib

/-!
Verification development for the NoSQL weather database repository.

The definitions below are a shallow embedding of the Python source
(`model.py`, `encrypt.py`, `test_crud.py`, `test_read_queries.py`):

* BSON documents are association lists `List (String × Value)`; the `Value`
  type marks how a field was produced (plain string, number, bcrypt hash,
  Fernet ciphertext, binary payload, nested document, array, datetime).
* Numeric measurement fields are modelled by `ℚ` (the Python code uses
  floats; the algebraic claims are about the exact arithmetic), datetimes
  by `ℤ`, and the wind-vector conversion (`math.atan2` / `math.sqrt`) by
  real numbers.
* MongoDB update operations used by the CRUD scenarios (`$push`/`$inc`/
  `$set`, `update_many`, `update_one`) become pure functions on the
  document structures; aggregation pipelines become list computations.
-/

/-- A BSON field value.  The constructors record the provenance that matters
for the security claims: `hashed s` is the bcrypt hash of the plaintext `s`
(`EncryptionHelper.hash_password`), `encrypted s` is the reversible Fernet
ciphertext of `s` (`EncryptionHelper.encrypt`), `binary f` is the byte
content of the photo file named `f`. -/
inductive Value where
  | str : String → Value
  | num : ℚ → Value
  | intVal : ℤ → Value
  | time : ℤ → Value
  | hashed : String → Value
  | encrypted : String → Value
  | binary : String → Value
  | doc : List (String × Value) → Value
  | arr : List Value → Value

/-- A BSON document: an ordered association list of fields. -/
abbrev Doc := List (String × Value)

/-- The keys of a document, in order. -/
def Doc.keys (d : Doc) : List String := d.map Prod.fst

/-- Look up the first field with the given key. -/
def Doc.lookup (d : Doc) (k : String) : Option Value :=
  match d with
  | [] => none
  | (k', v) :: rest => if k' = k then some v else Doc.lookup rest k

/-- MongoDB `$set` of a single top-level key: replace the field if the key is
present, append it otherwise. -/
def Doc.set (d : Doc) (k : String) (v : Value) : Doc :=
  if d.any (fun kv => kv.1 = k) then
    d.map (fun kv => if kv.1 = k then (k, v) else kv)
  else
    d ++ [(k, v)]

/-- An optional field, as produced by the Python `if x is not None:
doc["k"] = x` idiom: nothing when the attribute is unset, one field
otherwise. -/
def optEntry (k : String) : Option Value → Doc
  | none => []
  | some v => [(k, v)]

/-! ### Geometry (model.py `Location`, `LocationWithAltitude`) -/

/-- A GeoJSON-style point geometry: `{"type": ..., "coordinates": [...]}`. -/
structure Geometry where
  type : String
  coordinates : List ℚ
deriving DecidableEq, Repr

/-- model.py `Location`: a 2-D coordinate pair. -/
structure Location where
  latitude : ℚ
  longitude : ℚ
deriving DecidableEq, Repr

/-- model.py `Location.to_geojson`: coordinates ordered `[longitude, latitude]`. -/
def Location.to_geojson (l : Location) : Geometry :=
  { type := "Point", coordinates := [l.longitude, l.latitude] }

/-- model.py `LocationWithAltitude`: a 3-D coordinate triple. -/
structure LocationWithAltitude where
  latitude : ℚ
  longitude : ℚ
  altitude : ℚ
deriving DecidableEq, Repr

/-- model.py `LocationWithAltitude.from_geojson`: reject non-`Point`
geometries, reject a coordinate list that is not a triple, otherwise read
`[longitude, latitude, altitude]`. -/
def LocationWithAltitude.from_geojson (g : Geometry) : Except String LocationWithAltitude :=
  if g.type ≠ "Point" then
    .error "Only Point geometries are supported"
  else
    match g.coordinates with
    | [longitude, latitude, altitude] =>
        .ok { latitude := latitude, longitude := longitude, altitude := altitude }
    | _ => .error "Expected 3D coordinates [lon, lat, alt]"

/-- model.py `LocationWithAltitude.to_geojson`: coordinates ordered
`[longitude, latitude, altitude]`. -/
def LocationWithAltitude.to_geojson (l : LocationWithAltitude) : Geometry :=
  { type := "Point", coordinates := [l.longitude, l.latitude, l.altitude] }

/-- Modelled from the spec: the repository has `Location.to_geojson` for
2-D points but no 2-D inverse under `src/` (`from_geojson` exists only on
`LocationWithAltitude`).  Per the spec's geometry contract (§4.1), a pair
geometry must be a `Point` whose coordinate list has arity 2 and is read in
`[longitude, latitude]` order; any other arity is a malformed-geometry
failure. -/
def Location.from_geojson (g : Geometry) : Except String Location :=
  if g.type ≠ "Point" then
    .error "Only Point geometries are supported"
  else
    match g.coordinates with
    | [longitude, latitude] => .ok { latitude := latitude, longitude := longitude }
    | _ => .error "Expected 2D coordinates [lon, lat]"

/-! ### Users (model.py `Institution`, `WeatherWatcher`, `Administrator`) -/

/-- model.py `Institution`: an institutional owner; contact details are
considered public. -/
structure Institution where
  user_id : String
  password : String
  institution_name : String
  institution_type : String
  contact_name : String
  contact_email : String
  contact_telephone : String
deriving DecidableEq, Repr

/-- model.py `Institution.get_user_doc`: the storage projection for the
`users` collection; the password is stored bcrypt-hashed. -/
def Institution.get_user_doc (i : Institution) : Doc :=
  [("_id", .str i.user_id),
   ("password", .hashed i.password),
   ("user_type", .str i.institution_type),
   ("institution", .str i.institution_name),
   ("contact", .str i.contact_name),
   ("email", .str i.contact_email),
   ("telephone", .str i.contact_telephone)]

/-- model.py `Institution.get_subset_for_weather_station`. -/
def Institution.get_subset_for_weather_station (i : Institution) : Doc :=
  [("owner_type", .str i.institution_type),
   ("user_id", .str i.user_id),
   ("name", .str i.institution_name),
   ("contact", .str i.contact_name),
   ("email", .str i.contact_email),
   ("telephone", .str i.contact_telephone)]

/-- model.py `Institution.get_subset_for_weather_report`. -/
def Institution.get_subset_for_weather_report (i : Institution) : Doc :=
  [("owner_type", .str i.institution_type),
   ("user_id", .str i.user_id),
   ("name", .str i.institution_name)]

/-- model.py `WeatherWatcher`: a private individual; name and email are
stored under reversible encryption. -/
structure WeatherWatcher where
  user_id : String
  password : String
  display_name : String
  name : String
  email : String
deriving DecidableEq, Repr

/-- model.py `WeatherWatcher.get_user_doc`. -/
def WeatherWatcher.get_user_doc (w : WeatherWatcher) : Doc :=
  [("_id", .str w.user_id),
   ("password", .hashed w.password),
   ("user_type", .str "Private"),
   ("name", .encrypted w.name),
   ("display_name", .str w.display_name),
   ("email", .encrypted w.email)]

/-- model.py `WeatherWatcher.get_subset_for_weather_station`. -/
def WeatherWatcher.get_subset_for_weather_station (w : WeatherWatcher) : Doc :=
  [("owner_type", .str "Private"),
   ("user_id", .str w.user_id),
   ("name", .str w.display_name)]

/-- model.py `WeatherWatcher.get_subset_for_weather_report`. -/
def WeatherWatcher.get_subset_for_weather_report (w : WeatherWatcher) : Doc :=
  [("owner_type", .str "Private"),
   ("user_id", .str w.user_id),
   ("name", .str w.display_name)]

/-- model.py `Administrator`: a database administrator; it has no embedding
projection. -/
structure Administrator where
  user_id : String
  password : String
  name : String
  email : String
deriving DecidableEq, Repr

/-- model.py `Administrator.get_user_doc`. -/
def Administrator.get_user_doc (a : Administrator) : Doc :=
  [("_id", .str a.user_id),
   ("password", .hashed a.password),
   ("user_type", .str "Admin"),
   ("name", .encrypted a.name),
   ("email", .encrypted a.email)]

/-! ### Hourly readings and the day summary
(model.py `WeatherStationReading`, `WeatherStationDaySummary`;
test_crud.py `use_aggregation_pipeline_to_compute_a_day_summary`) -/

/-- model.py `WeatherStationReading`: one hourly measurement record,
including the four soil-depth-band sub-records. -/
structure WeatherStationReading where
  timestamp : ℤ
  sample_duration : ℚ
  temp : ℚ
  dewpoint : ℚ
  humidity : ℚ
  pressure : ℚ
  precip : ℚ
  cloud_cover : ℚ
  wind_speed : ℚ
  wind_direction : ℚ
  sunshine : ℚ
  soil_0_7_temp : ℚ
  soil_0_7_moisture : ℚ
  soil_7_28_temp : ℚ
  soil_7_28_moisture : ℚ
  soil_28_100_temp : ℚ
  soil_28_100_moisture : ℚ
  soil_100_255_temp : ℚ
  soil_100_255_moisture : ℚ
deriving DecidableEq, Repr

/-- The day-summary sub-document produced by the `$group` stage of
`use_aggregation_pipeline_to_compute_a_day_summary` (with `_id` popped). -/
structure DaySummaryDoc where
  temp_mean : ℚ
  temp_min : ℚ
  temp_max : ℚ
  dewpoint_mean : ℚ
  humidity_mean : ℚ
  humidity_min : ℚ
  humidity_max : ℚ
  pressure_mean : ℚ
  pressure_min : ℚ
  pressure_max : ℚ
  precip_sum : ℚ
  cloud_cover_mean : ℚ
  wind_speed_mean : ℚ
  wind_speed_min : ℚ
  wind_speed_max : ℚ
  sunshine : ℚ
deriving DecidableEq, Repr

/-- MongoDB's `$sum` accumulator: a running left fold starting at 0. -/
def accSum (l : List ℚ) : ℚ := l.foldl (fun a b => a + b) 0

/-- MongoDB's `$avg` accumulator: running sum divided by the group size. -/
def accAvg (l : List ℚ) : ℚ := accSum l / l.length

/-- MongoDB's `$min` accumulator over a non-empty group: fold `min` from the
first value (0 is never used: `$group` only ever runs on a non-empty
unwind). -/
def accMin (l : List ℚ) : ℚ :=
  match l with
  | [] => 0
  | x :: xs => xs.foldl min x

/-- MongoDB's `$max` accumulator, dually. -/
def accMax (l : List ℚ) : ℚ :=
  match l with
  | [] => 0
  | x :: xs => xs.foldl max x

/-- The `$group` stage of the day-summary pipeline applied to the unwound
readings of one report (test_crud.py lines 188–205). -/
def day_summary_group (rs : List WeatherStationReading) : DaySummaryDoc :=
  { temp_mean := accAvg (rs.map WeatherStationReading.temp),
    temp_min := accMin (rs.map WeatherStationReading.temp),
    temp_max := accMax (rs.map WeatherStationReading.temp),
    dewpoint_mean := accAvg (rs.map WeatherStationReading.dewpoint),
    humidity_mean := accAvg (rs.map WeatherStationReading.humidity),
    humidity_min := accMin (rs.map WeatherStationReading.humidity),
    humidity_max := accMax (rs.map WeatherStationReading.humidity),
    pressure_mean := accAvg (rs.map WeatherStationReading.pressure),
    pressure_min := accMin (rs.map WeatherStationReading.pressure),
    pressure_max := accMax (rs.map WeatherStationReading.pressure),
    precip_sum := accSum (rs.map WeatherStationReading.precip),
    cloud_cover_mean := accAvg (rs.map WeatherStationReading.cloud_cover),
    wind_speed_mean := accAvg (rs.map WeatherStationReading.wind_speed),
    wind_speed_min := accMin (rs.map WeatherStationReading.wind_speed),
    wind_speed_max := accMax (rs.map WeatherStationReading.wind_speed),
    sunshine := accSum (rs.map WeatherStationReading.sunshine) }

/-- The full day-summary aggregation (`$match` on the report, `$unwind` of
`readings`, `$group`): unwinding an empty readings array produces no
documents, so the pipeline returns an empty result list; otherwise it
returns the single group. -/
def day_summary_pipeline (rs : List WeatherStationReading) : List DaySummaryDoc :=
  match rs with
  | [] => []
  | _ => [day_summary_group rs]

/-- The embedded owner subset of a weather report
(`{owner_type, user_id, name}`, as produced by
`get_subset_for_weather_report`). -/
structure OwnerSubset where
  owner_type : String
  user_id : String
  name : String
deriving DecidableEq, Repr

/-- The embedded station subset of a weather report
(`{station_id, name}`). -/
structure StationSubset where
  station_id : String
  name : String
deriving DecidableEq, Repr

/-- A `weather_reports` document as mutated by the CRUD scenarios
(test_crud.py `insert_new_weather_report` creates it with an empty
`readings` array and no `day_summary`). -/
structure WeatherReportDoc where
  date : ℤ
  version : ℕ
  last_modified : ℤ
  location : Geometry
  station : Option StationSubset
  owner : Option OwnerSubset
  readings : List WeatherStationReading
  day_summary : Option DaySummaryDoc
deriving DecidableEq, Repr

/-- test_crud.py `insert_new_weather_station_reading` (the `AppendReading`
operation): one `update_one` applying `$push readings`, `$inc version 1`,
`$set last_modified` atomically. -/
def insert_new_weather_station_reading (r : WeatherReportDoc)
    (reading : WeatherStationReading) (last_modified : ℤ) : WeatherReportDoc :=
  { r with readings := r.readings ++ [reading],
           version := r.version + 1,
           last_modified := last_modified }

/-- test_crud.py `use_aggregation_pipeline_to_compute_a_day_summary` (the
`RecomputeSummary` operation): run the day-summary pipeline; only `if
result:` is non-empty, write the summary back with `$inc version 1`,
`$set day_summary` in one `update_one`. -/
def use_aggregation_pipeline_to_compute_a_day_summary (r : WeatherReportDoc) :
    WeatherReportDoc :=
  match day_summary_pipeline r.readings with
  | [] => r
  | s :: _ => { r with version := r.version + 1, day_summary := some s }

/-! ### Owner-rename propagation (test_crud.py `rename_a_weather_station_owner`) -/

/-- The owner subset embedded in a `weather_stations` document
(`get_subset_for_weather_station`): institutions additionally carry public
contact fields, private watchers do not. -/
structure StationOwnerSubset where
  owner_type : String
  user_id : String
  name : String
  contact : Option String
  email : Option String
  telephone : Option String
deriving DecidableEq, Repr

/-- A `weather_stations` document (model.py
`WeatherStation.get_weather_station_doc`, sans the optional maintenance
subset, which the rename never touches). -/
structure WeatherStationDoc where
  station_id : String
  name : String
  location : Geometry
  owner : StationOwnerSubset
  status : String
deriving DecidableEq, Repr

/-- The three collections touched by the owner-rename scenario. -/
structure WeatherDb where
  weather_reports : List WeatherReportDoc
  weather_stations : List WeatherStationDoc
  users : List Doc

/-- test_crud.py `rename_weather_reports_owner`: `update_many` with filter
`owner.user_id = user_id`, applying `$set owner.name / last_modified` and
`$inc version 1` to every matching report. -/
def rename_weather_reports_owner (reports : List WeatherReportDoc)
    (user_id new_name : String) (last_modified : ℤ) : List WeatherReportDoc :=
  reports.map fun r =>
    match r.owner with
    | some o =>
        if o.user_id = user_id then
          { r with owner := some { o with name := new_name },
                   last_modified := last_modified,
                   version := r.version + 1 }
        else r
    | none => r

/-- test_crud.py `rename_weather_station_owner`: `update_many` with filter
`owner.user_id = user_id`, applying only `$set owner.name` (stations carry
no version field). -/
def rename_weather_station_owner (stations : List WeatherStationDoc)
    (user_id new_name : String) : List WeatherStationDoc :=
  stations.map fun s =>
    if s.owner.user_id = user_id then { s with owner := { s.owner with name := new_name } }
    else s

/-- MongoDB `update_one`: apply the update to the first matching document
only. -/
def updateFirst (p : α → Bool) (f : α → α) : List α → List α
  | [] => []
  | x :: xs => if p x then f x :: xs else x :: updateFirst p f xs

/-- The filter `{"_id": user_id}` on a `users` document. -/
def matches_user_id (user_id : String) (d : Doc) : Bool :=
  match d.lookup "_id" with
  | some (.str s) => s == user_id
  | _ => false

/-- test_crud.py `update_institution_name`: `users.update_one` with filter
`_id = user_id`, applying `$set institution = new_name`. -/
def update_institution_name (users : List Doc) (user_id new_name : String) : List Doc :=
  updateFirst (matches_user_id user_id)
    (fun d => d.set "institution" (.str new_name)) users

/-- test_crud.py `rename_a_weather_station_owner` (the `RenameOwner`
operation): rename in the `weather_reports` collection, then
`weather_stations`, then the canonical `users` document, in that order. -/
def rename_a_weather_station_owner (db : WeatherDb) (user_id new_name : String)
    (modification_date : ℤ) : WeatherDb :=
  { weather_reports :=
      rename_weather_reports_owner db.weather_reports user_id new_name modification_date,
    weather_stations := rename_weather_station_owner db.weather_stations user_id new_name,
    users := update_institution_name db.users user_id new_name }

/-! ### Weather-balloon pagination (test_read_queries.py
`get_weather_balloon_readings_by_page`) -/

/-- model.py `RadiosondeReading`: one balloon reading (already converted to
Celsius and speed/bearing; for the pagination query only `timestamp`,
`gpheight` and `temp` are projected, and the sort key is `gpheight`). -/
structure RadiosondeReading where
  timestamp : ℤ
  location : LocationWithAltitude
  gpheight : ℚ
  temp : ℚ
  dewpoint : ℚ
  pressure : ℚ
  wind_speed : ℚ
  wind_direction : ℚ
deriving DecidableEq, Repr

/-- A `weather_balloon_reports` document, reduced to the parts the
pagination pipeline reads: the ordered readings array of one launch. -/
structure WeatherBalloonReportDoc where
  launch_date : ℤ
  version : ℕ
  last_modified : ℤ
  readings : List RadiosondeReading
deriving DecidableEq, Repr

/-- The row projected by the final `$project` stage:
`{timestamp, gpheight, temp}`. -/
structure BalloonPageRow where
  timestamp : ℤ
  gpheight : ℚ
  temp : ℚ
deriving DecidableEq, Repr

/-- The `$project` stage of the pagination pipeline. -/
def projectBalloonRow (r : RadiosondeReading) : BalloonPageRow :=
  { timestamp := r.timestamp, gpheight := r.gpheight, temp := r.temp }

/-- The `$sort {"readings.gpheight": 1}` comparison. -/
def gpheightLe (a b : RadiosondeReading) : Bool := a.gpheight ≤ b.gpheight

/-- The `$unwind` + `$sort` prefix of the pipeline for one launch: all
readings of the matched launch, ascending by geopotential height. -/
def sortedBalloonReadings (l : WeatherBalloonReportDoc) : List RadiosondeReading :=
  l.readings.mergeSort gpheightLe

/-- test_read_queries.py `get_weather_balloon_readings_by_page`: skip
`(page-1)*page_size`, limit `page_size`, project
`{timestamp, gpheight, temp}`. -/
def get_weather_balloon_readings_by_page (l : WeatherBalloonReportDoc)
    (page page_size : ℕ) : List BalloonPageRow :=
  ((((sortedBalloonReadings l).drop ((page - 1) * page_size)).take page_size).map
    projectBalloonRow)

/-- Concatenation, in page order, of pages `1 .. ⌈N / page_size⌉` of the
paginated query, where `N` is the launch's reading count. -/
def allBalloonPages (l : WeatherBalloonReportDoc) (page_size : ℕ) : List BalloonPageRow :=
  ((List.range ((l.readings.length + page_size - 1) / page_size)).map
    (fun i => get_weather_balloon_readings_by_page l (i + 1) page_size)).flatten

/-! ### Wind-vector conversion (model.py
`RadiosondeReading.from_geojson_properties`) -/

/-- Python `math.atan2 y x`: the angle of the point `(x, y)`, in `(-π, π]`. -/
noncomputable def atan2 (y x : ℝ) : ℝ := Complex.arg ⟨x, y⟩

/-- Python `math.degrees`. -/
noncomputable def math_degrees (x : ℝ) : ℝ := x * (180 / Real.pi)

/-- Python's float `%` for a positive modulus: `x - y * ⌊x / y⌋`. -/
noncomputable def pymod (x y : ℝ) : ℝ := x - y * ⌊x / y⌋

/-- model.py line 237: `(wind_u**2 + wind_v**2)**0.5`. -/
noncomputable def wind_speed_from_uv (u v : ℝ) : ℝ := (u ^ 2 + v ^ 2) ^ (0.5 : ℝ)

/-- model.py lines 240–244: the wind bearing in degrees, restricted to the
0-to-360-degree range via `(math.degrees (math.atan2 v u) + 360) % 360`. -/
noncomputable def wind_direction_from_uv (u v : ℝ) : ℝ :=
  pymod (math_degrees (atan2 v u) + 360) 360

/-! ### Weather-extremes classification (test_crud.py
`create_weather_extremes_report`) -/

/-- The `$match` qualifying disjunction of the extremes pipeline. -/
def qualifies_for_extremes (s : DaySummaryDoc) : Prop :=
  s.temp_min < -5 ∨ s.temp_max > 28 ∨ s.wind_speed_max > 12 ∨ s.precip_sum > 15

instance (s : DaySummaryDoc) : Decidable (qualifies_for_extremes s) := by
  unfold qualifies_for_extremes; infer_instance

/-- The `extreme_temp` field of the `$addFields` stage: the cold check comes
first, so it takes precedence. -/
def extreme_temp (s : DaySummaryDoc) : Option String :=
  if s.temp_min < 0 then some "Very Cold"
  else if s.temp_max > 28 then some "Very Hot"
  else none

/-- The `extreme_weather` field of the `$addFields` stage. -/
def extreme_weather (s : DaySummaryDoc) : Option String :=
  if s.wind_speed_max > 12 ∧ s.precip_sum > 15 then some "Storm"
  else if s.wind_speed_max > 12 then some "Strong Winds"
  else if s.precip_sum > 15 then some "Heavy Rain"
  else none

/-! ### Entity classes and their document projectors (model.py) -/

/-- model.py `WeatherCategory`. -/
inductive WeatherCategory where
  | CLEAR | SUNNY | SUNNY_INTERVALS | LIGHT_CLOUD | HEAVY_CLOUD
  | DRIZZLE | SUNSHINE_AND_SHOWERS | LIGHT_SHOWERS | HEAVY_SHOWERS
  | LIGHT_RAIN | HEAVY_RAIN | THUNDER_STORM | THUNDERY_SHOWERS
  | SLEET_SHOWERS | SLEET | LIGHT_SNOW_SHOWERS | HEAVY_SNOW_SHOWERS
  | LIGHT_SNOW | HEAVY_SNOW | HAIL_SHOWERS | HAIL | FOG | HAZY | MIST
deriving DecidableEq, Repr

/-- The `.value` of a `WeatherCategory` member. -/
def WeatherCategory.value : WeatherCategory → String
  | .CLEAR => "Clear"
  | .SUNNY => "Sunny"
  | .SUNNY_INTERVALS => "Sunny intervals"
  | .LIGHT_CLOUD => "Light cloud"
  | .HEAVY_CLOUD => "Heavy cloud"
  | .DRIZZLE => "Drizzle"
  | .SUNSHINE_AND_SHOWERS => "Sunshine and showers"
  | .LIGHT_SHOWERS => "Light showers"
  | .HEAVY_SHOWERS => "Heavy showers"
  | .LIGHT_RAIN => "Light rain"
  | .HEAVY_RAIN => "Heavy rain"
  | .THUNDER_STORM => "Thunder storm"
  | .THUNDERY_SHOWERS => "Thundery showers"
  | .SLEET_SHOWERS => "Sleet showers"
  | .SLEET => "Sleet"
  | .LIGHT_SNOW_SHOWERS => "Light snow showers"
  | .HEAVY_SNOW_SHOWERS => "Heavy snow showers"
  | .LIGHT_SNOW => "Light snow"
  | .HEAVY_SNOW => "Heavy snow"
  | .HAIL_SHOWERS => "Hail showers"
  | .HAIL => "Hail"
  | .FOG => "Fog"
  | .HAZY => "Hazy"
  | .MIST => "Mist"

/-- model.py `WeatherObservation`: a manual observation; every measurement
field is optional, only `timestamp` is mandatory. -/
structure WeatherObservation where
  timestamp : ℤ
  category : Option WeatherCategory
  temp : Option ℚ
  description : Option String
  humidity : Option ℚ
  precip : Option ℚ
  sample_duration : Option ℚ
  pressure : Option ℚ
  wind_speed : Option ℚ
  wind_direction : Option ℚ
  photo_filename : Option String

/-- model.py `WeatherObservation.get_doc_for_weather_report`: `timestamp`
always; every other field only when populated (the photo file's bytes are
read and stored as binary data). -/
def WeatherObservation.get_doc_for_weather_report (o : WeatherObservation) : Doc :=
  [("timestamp", .time o.timestamp)]
  ++ optEntry "category" (o.category.map (fun c => .str c.value))
  ++ optEntry "temp" (o.temp.map .num)
  ++ optEntry "description" (o.description.map .str)
  ++ optEntry "humidity" (o.humidity.map .num)
  ++ optEntry "precip" (o.precip.map .num)
  ++ optEntry "sample_duration" (o.sample_duration.map .num)
  ++ optEntry "pressure" (o.pressure.map .num)
  ++ optEntry "wind_speed" (o.wind_speed.map .num)
  ++ optEntry "wind_direction" (o.wind_direction.map .num)
  ++ optEntry "photo" (o.photo_filename.map .binary)

/-- model.py `WeatherStationReading.get_doc_for_weather_report`: the full
fixed-shape reading document, with the four soil-depth-band sub-records
nested under `soil`. -/
def WeatherStationReading.get_doc_for_weather_report (r : WeatherStationReading) : Doc :=
  [("timestamp", .time r.timestamp),
   ("sample_duration", .num r.sample_duration),
   ("temp", .num r.temp),
   ("dewpoint", .num r.dewpoint),
   ("humidity", .num r.humidity),
   ("pressure", .num r.pressure),
   ("precip", .num r.precip),
   ("cloud_cover", .num r.cloud_cover),
   ("wind_speed", .num r.wind_speed),
   ("wind_direction", .num r.wind_direction),
   ("sunshine", .num r.sunshine),
   ("soil", .doc
     [("0_to_7cm", .doc [("temp", .num r.soil_0_7_temp), ("moisture", .num r.soil_0_7_moisture)]),
      ("7_to_28cm", .doc [("temp", .num r.soil_7_28_temp), ("moisture", .num r.soil_7_28_moisture)]),
      ("28_to_100cm", .doc [("temp", .num r.soil_28_100_temp), ("moisture", .num r.soil_28_100_moisture)]),
      ("100_to_255cm", .doc [("temp", .num r.soil_100_255_temp), ("moisture", .num r.soil_100_255_moisture)])])]

/-- model.py `MaintenanceLogItem`. -/
structure MaintenanceLogItem where
  timestamp : ℤ
  station_id : String
  tech_id : String
  report : String

/-- model.py `MaintenanceLogItem.get_subset_for_weather_station`. -/
def MaintenanceLogItem.get_subset_for_weather_station (m : MaintenanceLogItem) : Doc :=
  [("timestamp", .time m.timestamp), ("tech_id", .str m.tech_id), ("report", .str m.report)]

/-- The owner of a weather station or report: one of the user variants that
expose embedding projections (model.py passes `Institution` or
`WeatherWatcher` objects as `owner`). -/
inductive OwnerUser where
  | institution : Institution → OwnerUser
  | watcher : WeatherWatcher → OwnerUser

/-- Variant dispatch of `get_subset_for_weather_station`. -/
def OwnerUser.get_subset_for_weather_station : OwnerUser → Doc
  | .institution i => i.get_subset_for_weather_station
  | .watcher w => w.get_subset_for_weather_station

/-- Variant dispatch of `get_subset_for_weather_report`. -/
def OwnerUser.get_subset_for_weather_report : OwnerUser → Doc
  | .institution i => i.get_subset_for_weather_report
  | .watcher w => w.get_subset_for_weather_report

/-- model.py `WeatherStation`: the station entity. -/
structure WeatherStation where
  station_id : String
  name : String
  location : Value
  owner : OwnerUser
  status : String
  latest_maintenance : Option MaintenanceLogItem

/-- model.py `WeatherStation.get_subset_for_weather_report`: only the
identifying fields. -/
def WeatherStation.get_subset_for_weather_report (s : WeatherStation) : Doc :=
  [("station_id", .str s.station_id), ("name", .str s.name)]

/-- model.py `WeatherReport`: the central in-memory report entity; every
embedded attribute is optional. -/
structure WeatherReport where
  date : ℤ
  location : Value
  last_modified : ℤ
  version : ℕ
  station : Option WeatherStation
  owner : Option OwnerUser
  readings : Option (List WeatherStationReading)
  observations : Option (List WeatherObservation)
  day_summary : Option Value

/-- model.py `WeatherReport.get_weather_report_doc`: `date`, `version`,
`last_modified`, `location` always; `station`, `owner`, `readings`,
`observations`, `day_summary` only when the attribute is populated. -/
def WeatherReport.get_weather_report_doc (r : WeatherReport) : Doc :=
  [("date", .time r.date),
   ("version", .intVal r.version),
   ("last_modified", .time r.last_modified),
   ("location", r.location)]
  ++ optEntry "station" (r.station.map (fun s => .doc s.get_subset_for_weather_report))
  ++ optEntry "owner" (r.owner.map (fun o => .doc o.get_subset_for_weather_report))
  ++ optEntry "readings"
      (r.readings.map (fun rs => .arr (rs.map (fun x => .doc x.get_doc_for_weather_report))))
  ++ optEntry "observations"
      (r.observations.map (fun os => .arr (os.map (fun o => .doc o.get_doc_for_weather_report))))
  ++ optEntry "day_summary" r.day_summary

/-! ### Concrete test data (the London 10th April 2025 scenario of
test_crud.py, timestamps abbreviated to the hour) -/

/-- The midnight reading inserted by
`insert_new_weather_station_reading_london_midnight`. -/
def londonMidnight : WeatherStationReading :=
  { timestamp := 0, sample_duration := 3600, temp := 6.5, dewpoint := 2.5,
    humidity := 76, pressure := 1032.7, precip := 0, cloud_cover := 25,
    wind_speed := 2.62, wind_direction := 43, sunshine := 0,
    soil_0_7_temp := 9.6, soil_0_7_moisture := 0.012,
    soil_7_28_temp := 11.7, soil_7_28_moisture := 0.126,
    soil_28_100_temp := 10.3, soil_28_100_moisture := 0.28,
    soil_100_255_temp := 8, soil_100_255_moisture := 0.291 }

/-- The 1am reading inserted by
`insert_new_weather_station_reading_london_1am`. -/
def london1am : WeatherStationReading :=
  { timestamp := 1, sample_duration := 3600, temp := 6, dewpoint := 1.8,
    humidity := 75, pressure := 1032.7, precip := 0, cloud_cover := 24,
    wind_speed := 2.21, wind_direction := 38, sunshine := 0,
    soil_0_7_temp := 8.9, soil_0_7_moisture := 0.01,
    soil_7_28_temp := 11.7, soil_7_28_moisture := 0.126,
    soil_28_100_temp := 10.3, soil_28_100_moisture := 0.28,
    soil_100_255_temp := 8, soil_100_255_moisture := 0.291 }

/-- The 2am reading inserted by
`insert_new_weather_station_reading_london_2am`. -/
def london2am : WeatherStationReading :=
  { timestamp := 2, sample_duration := 3600, temp := 5.6, dewpoint := 2,
    humidity := 77, pressure := 1032.5, precip := 1.1, cloud_cover := 44,
    wind_speed := 2.08, wind_direction := 35, sunshine := 0,
    soil_0_7_temp := 8.1, soil_0_7_moisture := 0.01,
    soil_7_28_temp := 11.6, soil_7_28_moisture := 0.126,
    soil_28_100_temp := 10.3, soil_28_100_moisture := 0.279,
    soil_100_255_temp := 8, soil_100_255_moisture := 0.291 }

/-- The reading sequence of the London scenario, with temperatures
`[6.5, 6.0, 5.6]`. -/
def londonReadings : List WeatherStationReading := [londonMidnight, london1am, london2am]

/-- The fresh report inserted by `insert_new_weather_report`: version 1,
empty readings array, no day summary. -/
def londonReport : WeatherReportDoc :=
  { date := 0, version := 1, last_modified := 0,
    location := { type := "Point", coordinates := [-0.1630249, 51.493847] },
    station := some { station_id := "WS-LON002", name := "London" },
    owner := some { owner_type := "Government", user_id := "metoff1", name := "Met Office" },
    readings := [], day_summary := none }

/-- A report document with an empty readings array and `last_modified = 5`
(the shape `insert_new_weather_report` creates, with plain numbers). -/
def emptyReadingsReport : WeatherReportDoc :=
  { date := 0, version := 1, last_modified := 5,
    location := { type := "Point", coordinates := [0, 0] },
    station := none, owner := none, readings := [], day_summary := none }

/-- A reading whose timestamp (0) lies before `emptyReadingsReport`'s
current `last_modified` (5). -/
def earlierReading : WeatherStationReading :=
  { timestamp := 0, sample_duration := 3600, temp := 1, dewpoint := 1,
    humidity := 1, pressure := 1, precip := 0, cloud_cover := 0,
    wind_speed := 1, wind_direction := 1, sunshine := 0,
    soil_0_7_temp := 0, soil_0_7_moisture := 0,
    soil_7_28_temp := 0, soil_7_28_moisture := 0,
    soil_28_100_temp := 0, soil_28_100_moisture := 0,
    soil_100_255_temp := 0, soil_100_255_moisture := 0 }

/-- The extremes scenario of §8: a day with `temp_min = -6`,
`wind_speed_max = 5`, `precip_sum = 2` (remaining rollups arbitrary). -/
def veryColdDay : DaySummaryDoc :=
  { temp_mean := -2, temp_min := -6, temp_max := 1,
    dewpoint_mean := -3, humidity_mean := 80, humidity_min := 70, humidity_max := 90,
    pressure_mean := 1000, pressure_min := 990, pressure_max := 1010,
    precip_sum := 2, cloud_cover_mean := 50,
    wind_speed_mean := 3, wind_speed_min := 1, wind_speed_max := 5,
    sunshine := 0 }

/-- The canonical Cambridge University institution of the rename scenario. -/
def camUniInstitution : Institution :=
  { user_id := "camUni", password := "pw", institution_name := "Cambridge University",
    institution_type := "University", contact_name := "Admissions",
    contact_email := "info@cam.ac.uk", contact_telephone := "01223" }

/-- A weather report owned by `camUni`. -/
def camReport : WeatherReportDoc :=
  { date := 0, version := 3, last_modified := 10,
    location := { type := "Point", coordinates := [0, 52] },
    station := some { station_id := "WS-CAM001", name := "Cambridge" },
    owner := some { owner_type := "University", user_id := "camUni",
                    name := "Cambridge University" },
    readings := [], day_summary := none }

/-- A weather station owned by `camUni`. -/
def camStation : WeatherStationDoc :=
  { station_id := "WS-CAM001", name := "Cambridge",
    location := { type := "Point", coordinates := [0, 52] },
    owner := { owner_type := "University", user_id := "camUni",
               name := "Cambridge University", contact := some "Admissions",
               email := some "info@cam.ac.uk", telephone := some "01223" },
    status := "Online" }

/-- The three collections of the rename scenario. -/
def camDb : WeatherDb :=
  { weather_reports := [camReport],
    weather_stations := [camStation],
    users := [camUniInstitution.get_user_doc] }

/-- A balloon launch with three readings, deliberately out of height
order. -/
def balloonLaunch : WeatherBalloonReportDoc :=
  { launch_date := 0, version := 1, last_modified := 0,
    readings :=
      [{ timestamp := 0, location := { latitude := 51, longitude := -1, altitude := 100 },
         gpheight := 100, temp := 10, dewpoint := 5, pressure := 1000,
         wind_speed := 3, wind_direction := 90 },
       { timestamp := 1, location := { latitude := 51, longitude := -1, altitude := 50 },
         gpheight := 50, temp := 12, dewpoint := 6, pressure := 1010,
         wind_speed := 2, wind_direction := 85 },
       { timestamp := 2, location := { latitude := 51, longitude := -1, altitude := 200 },
         gpheight := 200, temp := 7, dewpoint := 3, pressure := 980,
         wind_speed := 5, wind_direction := 95 }] }

/-! ### Accumulator lemmas -/

theorem foldl_add_shift (l : List ℚ) : ∀ a : ℚ, l.foldl (fun x y => x + y) a = a + l.sum := by
  induction l with
  | nil => intro a; simp
  | cons x xs ih => intro a; simp [ih, add_assoc]

theorem accSum_eq_sum (l : List ℚ) : accSum l = l.sum := by
  simpa using foldl_add_shift l 0

theorem accAvg_eq_mean (l : List ℚ) : accAvg l = l.sum / l.length := by
  simp [accAvg, accSum_eq_sum]

theorem foldl_min_mem (xs : List ℚ) : ∀ x : ℚ, xs.foldl min x ∈ x :: xs := by
  induction xs with
  | nil => intro x; simp
  | cons y ys ih =>
      intro x
      have h := ih (min x y)
      rcases min_choice x y with hc | hc <;>
        · rw [List.foldl_cons]
          rcases List.mem_cons.mp h with h' | h' <;> simp [hc] at h' ⊢ <;> simp [h']

theorem foldl_min_le (xs : List ℚ) :
    ∀ x y : ℚ, y ∈ x :: xs → xs.foldl min x ≤ y := by
  induction xs with
  | nil =>
      intro x y hy
      simp at hy
      simp [hy]
  | cons z zs ih =>
      intro x y hy
      rw [List.foldl_cons]
      rcases List.mem_cons.mp hy with h' | h'
      · calc zs.foldl min (min x z) ≤ min x z := ih (min x z) _ (List.mem_cons_self _ _)
          _ ≤ x := min_le_left _ _
          _ = y := h'.symm
      · rcases List.mem_cons.mp h' with h'' | h''
        · calc zs.foldl min (min x z) ≤ min x z := ih (min x z) _ (List.mem_cons_self _ _)
            _ ≤ z := min_le_right _ _
            _ = y := h''.symm
        · exact ih (min x z) y (List.mem_cons_of_mem _ h'')

theorem accMin_mem (l : List ℚ) (h : l ≠ []) : accMin l ∈ l := by
  match l with
  | [] => exact absurd rfl h
  | x :: xs => simpa [accMin] using foldl_min_mem xs x

theorem accMin_le (l : List ℚ) : ∀ y ∈ l, accMin l ≤ y := by
  match l with
  | [] => intro y hy; simp at hy
  | x :: xs => intro y hy; exact foldl_min_le xs x y hy

theorem foldl_max_mem (xs : List ℚ) : ∀ x : ℚ, xs.foldl max x ∈ x :: xs := by
  induction xs with
  | nil => intro x; simp
  | cons y ys ih =>
      intro x
      have h := ih (max x y)
      rcases max_choice x y with hc | hc <;>
        · rw [List.foldl_cons]
          rcases List.mem_cons.mp h with h' | h' <;> simp [hc] at h' ⊢ <;> simp [h']

theorem foldl_le_max (xs : List ℚ) :
    ∀ x y : ℚ, y ∈ x :: xs → y ≤ xs.foldl max x := by
  induction xs with
  | nil =>
      intro x y hy
      simp at hy
      simp [hy]
  | cons z zs ih =>
      intro x y hy
      rw [List.foldl_cons]
      rcases List.mem_cons.mp hy with h' | h'
      · calc y = x := h'
          _ ≤ max x z := le_max_left _ _
          _ ≤ zs.foldl max (max x z) := ih (max x z) _ (List.mem_cons_self _ _)
      · rcases List.mem_cons.mp h' with h'' | h''
        · calc y = z := h''
            _ ≤ max x z := le_max_right _ _
            _ ≤ zs.foldl max (max x z) := ih (max x z) _ (List.mem_cons_self _ _)
        · exact ih (max x z) y (List.mem_cons_of_mem _ h'')

theorem accMax_mem (l : List ℚ) (h : l ≠ []) : accMax l ∈ l := by
  match l with
  | [] => exact absurd rfl h
  | x :: xs => simpa [accMax] using foldl_max_mem xs x

theorem accMax_ge (l : List ℚ) : ∀ y ∈ l, y ≤ accMax l := by
  match l with
  | [] => intro y hy; simp at hy
  | x :: xs => intro y hy; exact foldl_le_max xs x y hy

/-! ### Claim theorems -/

/-- C2: `RecomputeSummary` over the report's current reading sequence
yields a day summary whose temp/dewpoint/humidity/pressure/cloud-cover/
wind-speed fields are arithmetic means, whose temp/humidity/pressure/
wind-speed min and max fields are the minimum and maximum (a member of the
list bounding it below resp. above), and whose precipitation and sunshine
fields are sums over all readings; in particular, for reading temperatures
`[6.5, 6.0, 5.6]` it yields `temp_mean = 181/30 = 6.0333…` (within `1e-6`
of `6.033333`), `temp_min = 5.6`, `temp_max = 6.5`. -/
theorem day_summary_rollup_correct (rs : List WeatherStationReading) (h : rs ≠ []) :
    ((day_summary_group rs).temp_mean = (rs.map WeatherStationReading.temp).sum / rs.length
      ∧ (day_summary_group rs).dewpoint_mean
          = (rs.map WeatherStationReading.dewpoint).sum / rs.length
      ∧ (day_summary_group rs).humidity_mean
          = (rs.map WeatherStationReading.humidity).sum / rs.length
      ∧ (day_summary_group rs).pressure_mean
          = (rs.map WeatherStationReading.pressure).sum / rs.length
      ∧ (day_summary_group rs).cloud_cover_mean
          = (rs.map WeatherStationReading.cloud_cover).sum / rs.length
      ∧ (day_summary_group rs).wind_speed_mean
          = (rs.map WeatherStationReading.wind_speed).sum / rs.length)
  ∧ ((day_summary_group rs).temp_min ∈ rs.map WeatherStationReading.temp
      ∧ (∀ x ∈ rs.map WeatherStationReading.temp, (day_summary_group rs).temp_min ≤ x)
      ∧ (day_summary_group rs).temp_max ∈ rs.map WeatherStationReading.temp
      ∧ (∀ x ∈ rs.map WeatherStationReading.temp, x ≤ (day_summary_group rs).temp_max)
      ∧ (day_summary_group rs).humidity_min ∈ rs.map WeatherStationReading.humidity
      ∧ (∀ x ∈ rs.map WeatherStationReading.humidity, (day_summary_group rs).humidity_min ≤ x)
      ∧ (day_summary_group rs).humidity_max ∈ rs.map WeatherStationReading.humidity
      ∧ (∀ x ∈ rs.map WeatherStationReading.humidity, x ≤ (day_summary_group rs).humidity_max)
      ∧ (day_summary_group rs).pressure_min ∈ rs.map WeatherStationReading.pressure
      ∧ (∀ x ∈ rs.map WeatherStationReading.pressure, (day_summary_group rs).pressure_min ≤ x)
      ∧ (day_summary_group rs).pressure_max ∈ rs.map WeatherStationReading.pressure
      ∧ (∀ x ∈ rs.map WeatherStationReading.pressure, x ≤ (day_summary_group rs).pressure_max)
      ∧ (day_summary_group rs).wind_speed_min ∈ rs.map WeatherStationReading.wind_speed
      ∧ (∀ x ∈ rs.map WeatherStationReading.wind_speed,
            (day_summary_group rs).wind_speed_min ≤ x)
      ∧ (day_summary_group rs).wind_speed_max ∈ rs.map WeatherStationReading.wind_speed
      ∧ (∀ x ∈ rs.map WeatherStationReading.wind_speed,
            x ≤ (day_summary_group rs).wind_speed_max))
  ∧ ((day_summary_group rs).precip_sum = (rs.map WeatherStationReading.precip).sum
      ∧ (day_summary_group rs).sunshine = (rs.map WeatherStationReading.sunshine).sum)
  ∧ day_summary_pipeline rs = [day_summary_group rs]
  ∧ ((day_summary_group londonReadings).temp_mean = 181 / 30
      ∧ |(day_summary_group londonReadings).temp_mean - 6.033333| < 1 / 1000000
      ∧ (day_summary_group londonReadings).temp_min = 5.6
      ∧ (day_summary_group londonReadings).temp_max = 6.5) := by
  have hmap : ∀ f : WeatherStationReading → ℚ, rs.map f ≠ [] := by
    intro f hf
    exact h (List.map_eq_nil_iff.mp hf)
  refine ⟨⟨?_, ?_, ?_, ?_, ?_, ?_⟩, ?_, ⟨?_, ?_⟩, ?_, ?_⟩
  · simp [day_summary_group, accAvg_eq_mean]
  · simp [day_summary_group, accAvg_eq_mean]
  · simp [day_summary_group, accAvg_eq_mean]
  · simp [day_summary_group, accAvg_eq_mean]
  · simp [day_summary_group, accAvg_eq_mean]
  · simp [day_summary_group, accAvg_eq_mean]
  · exact ⟨accMin_mem _ (hmap _), accMin_le _, accMax_mem _ (hmap _), accMax_ge _,
      accMin_mem _ (hmap _), accMin_le _, accMax_mem _ (hmap _), accMax_ge _,
      accMin_mem _ (hmap _), accMin_le _, accMax_mem _ (hmap _), accMax_ge _,
      accMin_mem _ (hmap _), accMin_le _, accMax_mem _ (hmap _), accMax_ge _⟩
  · simp [day_summary_group, accSum_eq_sum]
  · simp [day_summary_group, accSum_eq_sum]
  · match rs, h with
    | r :: rest, _ => rfl
  · have hmean : (day_summary_group londonReadings).temp_mean = 181 / 30 := by
      norm_num [day_summary_group, accAvg, accSum, londonReadings, londonMidnight,
        london1am, london2am]
    refine ⟨hmean, ?_, ?_, ?_⟩
    · rw [hmean, abs_sub_lt_iff]
      constructor <;> norm_num
    · norm_num [day_summary_group, accMin, londonReadings, londonMidnight,
        london1am, london2am, min_def]
    · norm_num [day_summary_group, accMax, londonReadings, londonMidnight,
        london1am, london2am, max_def]

/-- Witness for C2 at the concrete London reading sequence. -/
theorem day_summary_rollup_correct_witness :
    londonReadings ≠ [] ∧
    (day_summary_group londonReadings).temp_mean
      = (londonReadings.map WeatherStationReading.temp).sum / londonReadings.length :=
  ⟨by simp [londonReadings], (day_summary_rollup_correct londonReadings (by simp [londonReadings])).1.1⟩

/-- C3: for every day summary meeting the extremes qualifying disjunction,
the classification sets `extreme_temp` to `"Very Cold"` exactly when
`temp_min < 0` (the cold check coming first and taking precedence), to
`"Very Hot"` exactly when the cold check fails and `temp_max > 28`, and to
none otherwise; it sets `extreme_weather` to `"Storm"` exactly when both
the wind and precipitation thresholds are exceeded, `"Strong Winds"` when
only wind, `"Heavy Rain"` when only precipitation, and none otherwise; in
particular a day with `temp_min = -6`, `wind_speed_max = 5`,
`precip_sum = 2` classifies as `extreme_temp = "Very Cold"`,
`extreme_weather = null`. -/
theorem extremes_classification_correct (s : DaySummaryDoc)
    (h : qualifies_for_extremes s) :
    (extreme_temp s = some "Very Cold" ↔ s.temp_min < 0)
  ∧ (extreme_temp s = some "Very Hot" ↔ 0 ≤ s.temp_min ∧ 28 < s.temp_max)
  ∧ (extreme_temp s = none ↔ 0 ≤ s.temp_min ∧ s.temp_max ≤ 28)
  ∧ (extreme_weather s = some "Storm" ↔ 12 < s.wind_speed_max ∧ 15 < s.precip_sum)
  ∧ (extreme_weather s = some "Strong Winds" ↔ 12 < s.wind_speed_max ∧ s.precip_sum ≤ 15)
  ∧ (extreme_weather s = some "Heavy Rain" ↔ s.wind_speed_max ≤ 12 ∧ 15 < s.precip_sum)
  ∧ (extreme_weather s = none ↔ s.wind_speed_max ≤ 12 ∧ s.precip_sum ≤ 15)
  ∧ (extreme_temp veryColdDay = some "Very Cold" ∧ extreme_weather veryColdDay = none) := by
  refine ⟨?_, ?_, ?_, ?_, ?_, ?_, ?_, by decide, by decide⟩
  · unfold extreme_temp
    split_ifs with h1 h2
    · simp [h1]
    · simp [h1]
    · simp [h1]
  · unfold extreme_temp
    split_ifs with h1 h2
    · simp [not_le.mpr h1]
    · simp [not_lt.mp h1, h2]
    · simp [not_lt.mp h2]
  · unfold extreme_temp
    split_ifs with h1 h2
    · simp [not_le.mpr h1]
    · simp [not_le.mpr h2]
    · simp [not_lt.mp h1, not_lt.mp h2]
  · unfold extreme_weather
    split_ifs with h1 h2 h3
    · simp [h1]
    · rcases not_and_or.mp h1 with hx | hx
      · exact absurd h2 hx
      · simp [hx]
    · simp [h2]
    · simp [h2]
  · unfold extreme_weather
    split_ifs with h1 h2 h3
    · simp [h1.1, not_le.mpr h1.2]
    · rcases not_and_or.mp h1 with hx | hx
      · exact absurd h2 hx
      · simp [h2, not_lt.mp hx]
    · simp [h2]
    · simp [h2]
  · unfold extreme_weather
    split_ifs with h1 h2 h3
    · simp [not_le.mpr h1.1]
    · simp [not_le.mpr h2]
    · simp [not_lt.mp h2, h3]
    · simp [not_lt.mp h3]
  · unfold extreme_weather
    split_ifs with h1 h2 h3
    · simp [not_le.mpr h1.1, not_le.mpr h1.2]
    · simp [not_le.mpr h2]
    · simp [not_le.mpr h3]
    · simp [not_lt.mp h2, not_lt.mp h3]

/-- Witness for C3 at the very-cold scenario day. -/
theorem extremes_classification_correct_witness :
    qualifies_for_extremes veryColdDay ∧
    (extreme_temp veryColdDay = some "Very Cold" ↔ veryColdDay.temp_min < 0) :=
  ⟨by decide, (extremes_classification_correct veryColdDay (by decide)).1⟩

/-- C1 counterexample: the claim fails on the code at an explicit input.
On `emptyReadingsReport` (readings array empty, `last_modified = 5`):
a `RecomputeSummary` call does not increase `version` at all (the pipeline
returns no rows, so no update is issued), and an `AppendReading` call with
a reading timestamped 0 sets `last_modified` to 0, strictly below the
previous value 5. -/
theorem version_protocol_counterexample :
    ¬ ((use_aggregation_pipeline_to_compute_a_day_summary emptyReadingsReport).version
        = emptyReadingsReport.version + 1)
  ∧ (insert_new_weather_station_reading emptyReadingsReport earlierReading
        earlierReading.timestamp).last_modified < emptyReadingsReport.last_modified := by
  exact ⟨by decide, by decide⟩

/-- C1 (amended): every `AppendReading` — including the first append to a
freshly inserted report with an empty readings array — strictly increases
`version` by exactly 1, appends the reading, and sets `last_modified` to
the supplied reading timestamp (which is ≥ the previous `last_modified`
only when readings arrive in timestamp order — the operation itself does
not enforce it); each `RecomputeSummary` on a report whose reading
sequence is non-empty strictly increases `version` by exactly 1 and leaves
`last_modified` unchanged; on an empty reading sequence `RecomputeSummary`
is a no-op that leaves the document (and in particular `version`)
unchanged.  Each operation is a single atomic document update. -/
theorem version_protocol_amended (r : WeatherReportDoc)
    (reading : WeatherStationReading) (ts : ℤ) :
    ((insert_new_weather_station_reading r reading ts).version = r.version + 1
      ∧ (insert_new_weather_station_reading r reading ts).readings
          = r.readings ++ [reading]
      ∧ (insert_new_weather_station_reading r reading ts).last_modified = ts)
  ∧ (r.readings ≠ [] →
      ((use_aggregation_pipeline_to_compute_a_day_summary r).version = r.version + 1
        ∧ (use_aggregation_pipeline_to_compute_a_day_summary r).last_modified
            = r.last_modified
        ∧ (use_aggregation_pipeline_to_compute_a_day_summary r).day_summary
            = some (day_summary_group r.readings)))
  ∧ (r.readings = [] →
      use_aggregation_pipeline_to_compute_a_day_summary r = r) := by
  refine ⟨⟨rfl, rfl, rfl⟩, ?_, ?_⟩
  · intro h
    unfold use_aggregation_pipeline_to_compute_a_day_summary day_summary_pipeline
    match hr : r.readings, h with
    | x :: xs, _ => exact ⟨rfl, rfl, rfl⟩
  · intro h
    unfold use_aggregation_pipeline_to_compute_a_day_summary day_summary_pipeline
    rw [h]

/-- Witness for the amended C1 at the London scenario: the first append to
the freshly inserted report (readings array empty), the no-op recompute on
that fresh report, and the version bump of a recompute once a reading is
present. -/
theorem version_protocol_amended_witness :
    ((insert_new_weather_station_reading londonReport londonMidnight
        londonMidnight.timestamp).version = londonReport.version + 1)
  ∧ (use_aggregation_pipeline_to_compute_a_day_summary londonReport = londonReport)
  ∧ ((use_aggregation_pipeline_to_compute_a_day_summary
        (insert_new_weather_station_reading londonReport londonMidnight
          londonMidnight.timestamp)).version
      = (insert_new_weather_station_reading londonReport londonMidnight
          londonMidnight.timestamp).version + 1) :=
  ⟨(version_protocol_amended londonReport londonMidnight londonMidnight.timestamp).1.1,
   (version_protocol_amended londonReport londonMidnight
      londonMidnight.timestamp).2.2 rfl,
   ((version_protocol_amended
      (insert_new_weather_station_reading londonReport londonMidnight
        londonMidnight.timestamp)
      london1am london1am.timestamp).2.1
      (by simp [insert_new_weather_station_reading, londonReport])).1⟩

/-- C9: on a report whose reading sequence is empty, `RecomputeSummary` is
a no-op: the `$unwind` of the empty array yields no rows, the pipeline
result is empty, no write-back is issued, and the document — including
`version`, `last_modified` and the absent `day_summary` — is left entirely
unchanged. -/
theorem recompute_summary_empty_noop (r : WeatherReportDoc) (h : r.readings = []) :
    use_aggregation_pipeline_to_compute_a_day_summary r = r := by
  unfold use_aggregation_pipeline_to_compute_a_day_summary day_summary_pipeline
  rw [h]

/-- Witness for C9 at a concrete freshly-inserted report. -/
theorem recompute_summary_empty_noop_witness :
    emptyReadingsReport.readings = [] ∧
    use_aggregation_pipeline_to_compute_a_day_summary emptyReadingsReport
      = emptyReadingsReport :=
  ⟨rfl, recompute_summary_empty_noop emptyReadingsReport rfl⟩

/-! ### `update_one` / `$set` lemmas (for the rename propagation) -/

theorem updateFirst_mem {α : Type} (p : α → Bool) (f : α → α) (l : List α) (u : α)
    (hu : u ∈ l) (hp : p u = true) (huniq : ∀ v ∈ l, p v = true → v = u) :
    f u ∈ updateFirst p f l := by
  induction l with
  | nil => cases hu
  | cons x xs ih =>
      unfold updateFirst
      by_cases hx : p x = true
      · have hxu : x = u := huniq x (List.mem_cons_self _ _) hx
        subst hxu
        simp [hx]
      · have hux : u ∈ xs := by
          rcases List.mem_cons.mp hu with h | h
          · exact absurd (h ▸ hp) hx
          · exact h
        simp only [Bool.not_eq_true] at hx
        rw [hx]
        simp only [Bool.false_eq_true, if_false]
        exact List.mem_cons_of_mem _
          (ih hux (fun v hv hpv => huniq v (List.mem_cons_of_mem _ hv) hpv))

theorem lookup_map_set (d : Doc) (k : String) (v : Value)
    (h : d.any (fun kv => kv.1 = k) = true) :
    Doc.lookup (d.map (fun kv => if kv.1 = k then (k, v) else kv)) k = some v := by
  induction d with
  | nil => simp at h
  | cons kv rest ih =>
      rw [List.any_cons, Bool.or_eq_true] at h
      by_cases hk : kv.1 = k
      · rw [List.map_cons, if_pos hk]
        simp [Doc.lookup]
      · have h' : rest.any (fun kv => kv.1 = k) = true := by
          rcases h with hx | hx
          · exact absurd (of_decide_eq_true hx) hk
          · exact hx
        rw [List.map_cons, if_neg hk]
        rw [show Doc.lookup ((kv :: rest.map (fun kv => if kv.1 = k then (k, v) else kv)) : Doc) k
              = if kv.1 = k then some kv.2
                else Doc.lookup (rest.map (fun kv => if kv.1 = k then (k, v) else kv)) k from rfl]
        rw [if_neg hk]
        exact ih h'

theorem lookup_append_absent (d : Doc) (k : String) (v : Value)
    (h : d.any (fun kv => kv.1 = k) = false) :
    Doc.lookup (d ++ [(k, v)]) k = some v := by
  induction d with
  | nil => simp [Doc.lookup]
  | cons kv rest ih =>
      rw [List.any_cons, Bool.or_eq_false_iff] at h
      have hk : ¬ kv.1 = k := of_decide_eq_false h.1
      rw [List.cons_append]
      rw [show Doc.lookup ((kv :: (rest ++ [(k, v)])) : Doc) k
            = if kv.1 = k then some kv.2 else Doc.lookup (rest ++ [(k, v)]) k from rfl]
      rw [if_neg hk]
      exact ih h.2

theorem lookup_set (d : Doc) (k : String) (v : Value) :
    Doc.lookup (Doc.set d k v) k = some v := by
  unfold Doc.set
  by_cases h : d.any (fun kv => kv.1 = k) = true
  · rw [if_pos h]
    exact lookup_map_set d k v h
  · rw [if_neg h]
    exact lookup_append_absent d k v (Bool.not_eq_true _ ▸ h)

/-- C4: after the owner-rename propagation
`rename_a_weather_station_owner` for `uid`, every weather report embedding
owner `uid` appears with `owner.name` set to the new name, `version`
increased by exactly 1 and `last_modified` refreshed to the supplied
modification date; every weather station embedding owner `uid` appears
with `owner.name` renamed (stations carry no version); and the canonical
`users` document for `uid` appears with its `institution` display name set
to the new name. -/
theorem rename_owner_propagation (db : WeatherDb) (uid new_name : String) (mod : ℤ)
    (r : WeatherReportDoc) (o : OwnerSubset) (hr : r ∈ db.weather_reports)
    (ho : r.owner = some o) (hoid : o.user_id = uid)
    (s : WeatherStationDoc) (hs : s ∈ db.weather_stations)
    (hsid : s.owner.user_id = uid)
    (u : Doc) (hu : u ∈ db.users) (huid : matches_user_id uid u = true)
    (huniq : ∀ v ∈ db.users, matches_user_id uid v = true → v = u) :
    ({ r with owner := some { o with name := new_name },
              last_modified := mod,
              version := r.version + 1 }
        ∈ (rename_a_weather_station_owner db uid new_name mod).weather_reports)
  ∧ ({ s with owner := { s.owner with name := new_name } }
        ∈ (rename_a_weather_station_owner db uid new_name mod).weather_stations)
  ∧ (u.set "institution" (.str new_name)
        ∈ (rename_a_weather_station_owner db uid new_name mod).users)
  ∧ Doc.lookup (u.set "institution" (.str new_name)) "institution"
        = some (.str new_name) := by
  refine ⟨?_, ?_, ?_, lookup_set u "institution" (.str new_name)⟩
  · unfold rename_a_weather_station_owner rename_weather_reports_owner
    refine List.mem_map.mpr ⟨r, hr, ?_⟩
    rw [ho]
    simp [hoid]
  · unfold rename_a_weather_station_owner rename_weather_station_owner
    refine List.mem_map.mpr ⟨s, hs, ?_⟩
    simp [hsid]
  · unfold rename_a_weather_station_owner update_institution_name
    exact updateFirst_mem _ _ _ u hu huid huniq

/-- Witness for C4: the `camUni` rename scenario of §8
(`"Cambridge University"` → `"Science Dept. Cambridge University"`). -/
theorem rename_owner_propagation_witness :
    (camReport ∈ camDb.weather_reports
      ∧ camReport.owner = some { owner_type := "University", user_id := "camUni",
                                 name := "Cambridge University" }
      ∧ matches_user_id "camUni" camUniInstitution.get_user_doc = true)
  ∧ Doc.lookup (camUniInstitution.get_user_doc.set "institution"
        (.str "Science Dept. Cambridge University")) "institution"
      = some (.str "Science Dept. Cambridge University") :=
  ⟨⟨List.mem_cons_self _ _, rfl, rfl⟩,
   (rename_owner_propagation camDb "camUni" "Science Dept. Cambridge University" 99
      camReport { owner_type := "University", user_id := "camUni",
                  name := "Cambridge University" }
      (List.mem_cons_self _ _) rfl rfl
      camStation (List.mem_cons_self _ _) rfl
      camUniInstitution.get_user_doc (List.mem_cons_self _ _) rfl
      (fun v hv _ => by
        have : v = camUniInstitution.get_user_doc := by
          simpa [camDb] using hv
        exact this)).2.2.2⟩

/-! ### Pagination lemmas -/

theorem ceil_div_succ (p n : ℕ) (hp : 1 ≤ p) (hn : 1 ≤ n) :
    (n + p - 1) / p = ((n - p) + p - 1) / p + 1 := by
  have h1 : n + p - 1 = (n - 1) + p := by omega
  rw [h1, Nat.add_div_right _ hp]
  by_cases h : p < n
  · have h2 : (n - p) + p - 1 = n - 1 := by omega
    rw [h2]
  · have h2 : (n - p) + p - 1 = p - 1 := by omega
    rw [h2, Nat.div_eq_of_lt (show p - 1 < p by omega),
        Nat.div_eq_of_lt (show n - 1 < p by omega)]

theorem flatten_map_map {α β : Type} (f : α → β) (L : List (List α)) :
    (L.map (fun xs => xs.map f)).flatten = L.flatten.map f := by
  induction L with
  | nil => simp
  | cons xs rest ih =>
      rw [List.map_cons, List.flatten_cons, List.flatten_cons, ih, List.map_append]

theorem join_pages {α : Type} (p : ℕ) (hp : 1 ≤ p) :
    ∀ (n : ℕ) (xs : List α), xs.length = n →
      ((List.range ((n + p - 1) / p)).map (fun i => (xs.drop (i * p)).take p)).flatten
        = xs := by
  intro n
  induction n using Nat.strong_induction_on with
  | _ n ih =>
    intro xs hlen
    match n, hlen with
    | 0, hlen =>
        have hxs : xs = [] := List.length_eq_zero.mp hlen
        subst hxs
        rw [show (0 + p - 1) / p = 0 from Nat.div_eq_of_lt (by omega)]
        simp
    | Nat.succ m, hlen =>
        rw [ceil_div_succ p (m + 1) hp (by omega), List.range_succ_eq_map,
            List.map_cons, List.flatten_cons, Nat.zero_mul, List.drop_zero]
        have hmap : (List.range ((m + 1 - p + p - 1) / p)).map
              ((fun i => (xs.drop (i * p)).take p) ∘ Nat.succ)
            = (List.range ((m + 1 - p + p - 1) / p)).map
              (fun i => ((xs.drop p).drop (i * p)).take p) := by
          apply List.map_congr_left
          intro i _
          simp only [Function.comp_apply]
          rw [List.drop_drop,
              show p + i * p = (Nat.succ i) * p from by
                rw [Nat.succ_mul]; exact Nat.add_comm _ _]
        rw [List.map_map, hmap]
        have hdlen : (xs.drop p).length = m + 1 - p := by
          rw [List.length_drop, hlen]
        rw [ih (m + 1 - p) (by omega) (xs.drop p) hdlen]
        exact List.take_append_drop p xs

/-- C5: for every balloon launch and every page size `p ≥ 1`, the
height-ascending sort of the launch's readings is a permutation of the
reading sequence (no gaps, no duplicates) sorted ascending by geopotential
height, and paginated retrieval with offset `(page-1)*p` and limit `p`
over pages `1 .. ⌈N/p⌉` (page 1 at offset 0), concatenated in page order,
reproduces exactly that full sorted sequence (projected to
timestamp/height/temperature rows). -/
theorem pagination_completeness (l : WeatherBalloonReportDoc) (p : ℕ) (hp : 1 ≤ p) :
    (sortedBalloonReadings l).Perm l.readings
  ∧ (sortedBalloonReadings l).Pairwise (fun a b => gpheightLe a b = true)
  ∧ allBalloonPages l p = (sortedBalloonReadings l).map projectBalloonRow := by
  refine ⟨List.mergeSort_perm _ _, ?_, ?_⟩
  · exact List.sorted_mergeSort
      (fun a b c hab hbc => by
        simp only [gpheightLe, decide_eq_true_eq] at hab hbc ⊢
        exact le_trans hab hbc)
      (fun a b => by
        simp only [gpheightLe, Bool.or_eq_true, decide_eq_true_eq]
        exact le_total a.gpheight b.gpheight)
      l.readings
  · have hlen : l.readings.length = (sortedBalloonReadings l).length := by
      unfold sortedBalloonReadings
      rw [List.length_mergeSort]
    unfold allBalloonPages get_weather_balloon_readings_by_page
    rw [hlen]
    rw [show (fun i => ((((sortedBalloonReadings l).drop ((i + 1 - 1) * p)).take p).map
            projectBalloonRow))
          = (fun xs => xs.map projectBalloonRow)
              ∘ (fun i => (((sortedBalloonReadings l).drop (i * p)).take p)) from by
        funext i
        simp]
    rw [← List.map_map, flatten_map_map,
        join_pages p hp (sortedBalloonReadings l).length (sortedBalloonReadings l) rfl]

/-- Witness for C5 at the three-reading launch with page size 2. -/
theorem pagination_completeness_witness :
    1 ≤ 2
  ∧ allBalloonPages balloonLaunch 2
      = (sortedBalloonReadings balloonLaunch).map projectBalloonRow :=
  ⟨by decide, (pagination_completeness balloonLaunch 2 (by decide)).2.2⟩

/-- C6: for every user variant and every plaintext password, the storage
projection stores the credential only under the one-way bcrypt hash — the
`password` field is the hash of the plaintext, and changing the plaintext
changes the stored document only at that hashed field — and no embedding
projection carries a credential field: the subsets contain no `password`
key and are identical for any two users differing only in password. -/
theorem password_hashed_and_not_embedded :
    (∀ (i : Institution) (p' : String),
        (i.get_user_doc).lookup "password" = some (.hashed i.password)
      ∧ ({ i with password := p' } : Institution).get_user_doc
          = i.get_user_doc.map
              (fun kv => if kv.1 = "password" then ("password", .hashed p') else kv)
      ∧ "password" ∉ (i.get_subset_for_weather_station).keys
      ∧ "password" ∉ (i.get_subset_for_weather_report).keys
      ∧ ({ i with password := p' } : Institution).get_subset_for_weather_station
          = i.get_subset_for_weather_station
      ∧ ({ i with password := p' } : Institution).get_subset_for_weather_report
          = i.get_subset_for_weather_report)
  ∧ (∀ (w : WeatherWatcher) (p' : String),
        (w.get_user_doc).lookup "password" = some (.hashed w.password)
      ∧ ({ w with password := p' } : WeatherWatcher).get_user_doc
          = w.get_user_doc.map
              (fun kv => if kv.1 = "password" then ("password", .hashed p') else kv)
      ∧ "password" ∉ (w.get_subset_for_weather_station).keys
      ∧ "password" ∉ (w.get_subset_for_weather_report).keys
      ∧ ({ w with password := p' } : WeatherWatcher).get_subset_for_weather_station
          = w.get_subset_for_weather_station
      ∧ ({ w with password := p' } : WeatherWatcher).get_subset_for_weather_report
          = w.get_subset_for_weather_report)
  ∧ (∀ (a : Administrator) (p' : String),
        (a.get_user_doc).lookup "password" = some (.hashed a.password)
      ∧ ({ a with password := p' } : Administrator).get_user_doc
          = a.get_user_doc.map
              (fun kv => if kv.1 = "password" then ("password", .hashed p') else kv)) := by
  refine ⟨fun i p' => ⟨rfl, ?_, ?_, ?_, rfl, rfl⟩,
          fun w p' => ⟨rfl, ?_, ?_, ?_, rfl, rfl⟩,
          fun a p' => ⟨rfl, ?_⟩⟩
  · simp [Institution.get_user_doc]
  · simp [Doc.keys, Institution.get_subset_for_weather_station]
  · simp [Doc.keys, Institution.get_subset_for_weather_report]
  · simp [WeatherWatcher.get_user_doc]
  · simp [Doc.keys, WeatherWatcher.get_subset_for_weather_station]
  · simp [Doc.keys, WeatherWatcher.get_subset_for_weather_report]
  · simp [Administrator.get_user_doc]

/-- C7: for every wind vector `(u, v)`, the converted reading has
`speed = sqrt(u² + v²)` (the code's `**0.5` is the square root) and
bearing `(degrees(atan2(v, u)) + 360) mod 360`, which always lies in the
half-open interval `[0, 360)`. -/
theorem wind_conversion_correct (u v : ℝ) :
    wind_speed_from_uv u v = Real.sqrt (u ^ 2 + v ^ 2)
  ∧ wind_direction_from_uv u v = pymod (math_degrees (atan2 v u) + 360) 360
  ∧ wind_direction_from_uv u v ∈ Set.Ico (0 : ℝ) 360 := by
  refine ⟨?_, rfl, ?_⟩
  · unfold wind_speed_from_uv
    rw [Real.sqrt_eq_rpow]
    norm_num
  · unfold wind_direction_from_uv pymod
    rw [Set.mem_Ico]
    set x := math_degrees (atan2 v u) + 360 with hx
    have h360 : (0 : ℝ) < 360 := by norm_num
    have h1 : ((⌊x / 360⌋ : ℤ) : ℝ) * 360 ≤ x :=
      (le_div_iff₀ h360).mp (Int.floor_le _)
    have h2 : x < (((⌊x / 360⌋ : ℤ) : ℝ) + 1) * 360 :=
      (div_lt_iff₀ h360).mp (Int.lt_floor_add_one _)
    constructor
    · linarith
    · linarith

/-- C8: for all `(lat, lon)`, converting the coordinate pair to the
normalized point geometry (coordinates ordered `[longitude, latitude]`)
and converting that geometry back recovers the original pair exactly:
`from_geojson` after `to_geojson` is the identity on coordinate pairs. -/
theorem geometry_roundtrip_2d (lat lon : ℚ) :
    Location.from_geojson (Location.to_geojson { latitude := lat, longitude := lon })
      = .ok { latitude := lat, longitude := lon } := by
  rfl

/-- The companion 3-D round trip, entirely from source code
(`LocationWithAltitude.to_geojson` / `from_geojson`). -/
theorem geometry_roundtrip_3d (lat lon alt : ℚ) :
    LocationWithAltitude.from_geojson
        (LocationWithAltitude.to_geojson
          { latitude := lat, longitude := lon, altitude := alt })
      = .ok { latitude := lat, longitude := lon, altitude := alt } := by
  rfl

theorem mem_keys_optEntry (a k : String) (v : Option Value) :
    a ∈ (optEntry k v : Doc).keys ↔ a = k ∧ v.isSome := by
  cases v <;> simp [optEntry, Doc.keys]

theorem exists_mem_optEntry (a k : String) (v : Option Value) :
    (∃ x, (a, x) ∈ (optEntry k v : Doc)) ↔ a = k ∧ v.isSome := by
  cases v <;> simp [optEntry]

/-- C10: the weather-report storage projection always contains the keys
`date`, `version`, `last_modified` and `location`, and contains each of
`station`, `owner`, `readings`, `observations`, `day_summary` exactly when
the corresponding in-memory attribute is populated; likewise each optional
field of an embedded observation appears in its document exactly when
populated, while `timestamp` is always present. -/
theorem document_shaping_optional_fields (r : WeatherReport) (o : WeatherObservation) :
    ("date" ∈ (r.get_weather_report_doc).keys
      ∧ "version" ∈ (r.get_weather_report_doc).keys
      ∧ "last_modified" ∈ (r.get_weather_report_doc).keys
      ∧ "location" ∈ (r.get_weather_report_doc).keys)
  ∧ (("station" ∈ (r.get_weather_report_doc).keys ↔ r.station.isSome)
      ∧ ("owner" ∈ (r.get_weather_report_doc).keys ↔ r.owner.isSome)
      ∧ ("readings" ∈ (r.get_weather_report_doc).keys ↔ r.readings.isSome)
      ∧ ("observations" ∈ (r.get_weather_report_doc).keys ↔ r.observations.isSome)
      ∧ ("day_summary" ∈ (r.get_weather_report_doc).keys ↔ r.day_summary.isSome))
  ∧ ("timestamp" ∈ (o.get_doc_for_weather_report).keys
      ∧ ("category" ∈ (o.get_doc_for_weather_report).keys ↔ o.category.isSome)
      ∧ ("temp" ∈ (o.get_doc_for_weather_report).keys ↔ o.temp.isSome)
      ∧ ("description" ∈ (o.get_doc_for_weather_report).keys ↔ o.description.isSome)
      ∧ ("humidity" ∈ (o.get_doc_for_weather_report).keys ↔ o.humidity.isSome)
      ∧ ("precip" ∈ (o.get_doc_for_weather_report).keys ↔ o.precip.isSome)
      ∧ ("sample_duration" ∈ (o.get_doc_for_weather_report).keys
            ↔ o.sample_duration.isSome)
      ∧ ("pressure" ∈ (o.get_doc_for_weather_report).keys ↔ o.pressure.isSome)
      ∧ ("wind_speed" ∈ (o.get_doc_for_weather_report).keys ↔ o.wind_speed.isSome)
      ∧ ("wind_direction" ∈ (o.get_doc_for_weather_report).keys
            ↔ o.wind_direction.isSome)
      ∧ ("photo" ∈ (o.get_doc_for_weather_report).keys ↔ o.photo_filename.isSome)) := by
  unfold WeatherReport.get_weather_report_doc WeatherObservation.get_doc_for_weather_report
  refine ⟨⟨?_, ?_, ?_, ?_⟩, ⟨?_, ?_, ?_, ?_, ?_⟩,
          ⟨?_, ?_, ?_, ?_, ?_, ?_, ?_, ?_, ?_, ?_, ?_⟩⟩ <;>
    simp [Doc.keys, mem_keys_optEntry, exists_mem_optEntry]
